import Mathlib

/-!
# The audio-weather backend (`server.js`)

A shallow embedding of the single request handler of `server.js`
(`POST /api/audio-weather`) and of the multer storage configuration in front
of it.

The handler is effectful JavaScript.  It is embedded by explicit state
passing:

* the three outbound HTTP requests made through `axios` are answered by an
  oracle `Env.axios`, which either rejects with the message of the error
  (`err.message`) or resolves with the parsed response body (`response.data`);
* the staging directory is the list of paths that currently exist;
* `fs.unlinkSync` may throw, which the oracle `Env.unlinkSync` decides;
* every outbound request and every deletion is recorded, in order, in the
  outcome of the handler, next to the response that was sent and the
  exception (if any) that escaped the handler.

`console.log` / `console.error` lines have no effect on any of this and are
left out.
-/

namespace AudioWeather

/-! ## JavaScript values -/

/-- A JavaScript value as it can come out of a parsed JSON response body, plus
`undefined`. -/
inductive JsVal where
  | undefined
  | null
  | bool (b : Bool)
  | num (q : Rat)
  | str (s : String)
  | arr (items : List JsVal)
  | obj (fields : List (String × JsVal))

/-- The message of the `TypeError` V8 raises when a property is read from
`undefined` or `null`. -/
def typeErrorMessage (base key : String) : String :=
  "Cannot read properties of " ++ base ++ " (reading \x27" ++ key ++ "\x27)"

/-- Member access `v.key` for the names the handler reads (`text`, `list`,
`choices`, `message`, `content`), none of which is defined on a built-in
prototype: reading from `undefined` or `null` throws, an object yields its own
property or `undefined`, every other value yields `undefined`. -/
def getProp (v : JsVal) (key : String) : Except String JsVal :=
  match v with
  | .undefined => .error (typeErrorMessage "undefined" key)
  | .null => .error (typeErrorMessage "null" key)
  | .obj fields => .ok ((fields.lookup key).getD .undefined)
  | _ => .ok .undefined

/-- Element access `v[0]`: throws on `undefined` and `null`; the first element
of an array, `undefined` when the array is empty; the own property `"0"` of an
object; the first character of a string (the first UTF-16 unit in JavaScript,
which is the whole character for the Basic Multilingual Plane); `undefined`
for numbers and booleans. -/
def getIndex0 (v : JsVal) : Except String JsVal :=
  match v with
  | .undefined => .error (typeErrorMessage "undefined" "0")
  | .null => .error (typeErrorMessage "null" "0")
  | .arr items => .ok (items.head?.getD .undefined)
  | .obj fields => .ok ((fields.lookup "0").getD .undefined)
  | .str s =>
    match s.data with
    | [] => .ok .undefined
    | c :: _ => .ok (.str (String.singleton c))
  | _ => .ok .undefined

/-- A form field of `req.body` (or a variable of `process.env`) inside a
template literal: the string itself, or the text `undefined` when absent. -/
def templateField (v : Option String) : String :=
  match v with
  | some s => s
  | none => "undefined"

/-- A form field of `req.body` as a value: the string, or `undefined`. -/
def fieldValue (v : Option String) : JsVal :=
  match v with
  | some s => .str s
  | none => .undefined

/-- The test `!v` on a form field: true when the field is absent or is the
empty string; every non-empty string is truthy. -/
def falsy (v : Option String) : Bool :=
  match v with
  | none => true
  | some s => s == ""

/-! ## The environment of one request -/

/-- An outbound HTTP request of the handler. -/
inductive Call where
  /-- The call `axios.post("https://api.openai.com/v1/audio/transcriptions", audioForm, ...)`:
  the form carries a read stream of `filePath`, model `whisper-1`, language
  `es`. -/
  | whisper (filePath : String) (authorization : String)
  /-- The call `axios.get(weatherURL)`. -/
  | weather (url : String)
  /-- The call `axios.post("https://api.openai.com/v1/chat/completions", ...)`:
  model `gpt-3.5-turbo`, the fixed system message, and `prompt` as the user
  message. -/
  | chat (prompt : String) (authorization : String)

/-- The three external services. -/
inductive Service where
  | transcription
  | weather
  | summarization
  deriving DecidableEq

/-- The service an outbound request goes to. -/
def Call.service : Call → Service
  | .whisper _ _ => .transcription
  | .weather _ => .weather
  | .chat _ _ => .summarization

/-- Everything outside the handler that it reads or calls. -/
structure Env where
  /-- The value `path.join(__dirname, 'uploads')`. -/
  uploadsDir : String
  /-- The variable `process.env.OPENAI_API_KEY`. -/
  OPENAI_API_KEY : Option String
  /-- The variable `process.env.OPENWEATHER_KEY`. -/
  OPENWEATHER_KEY : Option String
  /-- The result of an awaited `axios` call: `.error m` when the promise
  rejects with an error whose `message` is `m`, `.ok data` when it resolves
  with a response whose `data` is `data`. -/
  axios : Call → Except String JsVal
  /-- The call `fs.unlinkSync(path)` on an existing path: `none` when it
  deletes the file, `some m` when it throws an error with message `m`. -/
  unlinkSync : String → Option String
  /-- The value `new Date().toISOString()` at the time of the success
  response. -/
  isoNow : String
  /-- The built-in `JSON.stringify(v, null, 2)` on a value other than
  `undefined`. -/
  stringifyDefined : JsVal → String
  /-- The built-in string conversion of numbers, arrays and objects inside a
  template literal. -/
  toStringOther : JsVal → String

/-- The built-in `JSON.stringify(v, null, 2)`: `undefined` (no string at all)
for `undefined`, the serialisation otherwise. -/
def jsonStringify (env : Env) (v : JsVal) : Option String :=
  match v with
  | .undefined => none
  | w => some (env.stringifyDefined w)

/-- A value inside a template literal. -/
def templateValue (env : Env) (v : JsVal) : String :=
  match v with
  | .str s => s
  | .undefined => "undefined"
  | .null => "null"
  | .bool true => "true"
  | .bool false => "false"
  | w => env.toStringOther w

/-! ## Upload intake (multer) -/

/-- The `filename` callback of `multer.diskStorage`:
`audio-${Date.now()}.m4a`, where `now` is the value of `Date.now()`. -/
def filename (now : Int) : String :=
  "audio-" ++ toString now ++ ".m4a"

/-- The limit `limits.fileSize`. -/
def fileSizeLimit : Nat := 25 * 1024 * 1024

/-- The call `path.join(dir, name)` for a normalised directory and a file name
without separators (POSIX). -/
def pathJoin (dir name : String) : String :=
  dir ++ "/" ++ name

/-- The object `req.file` that multer leaves for the handler. -/
structure MulterFile where
  filename : String
  size : Nat

/-- The fields of `req.body` the handler reads: the text fields of the
multipart form, each a string when present. -/
structure Body where
  latitude : Option String
  longitude : Option String

/-- The request as the handler sees it. -/
structure Request where
  file : Option MulterFile
  body : Body

/-- The middleware `upload.single('audio')` with the disk storage configured
in `server.js`: without an `audio` part the request goes on with no
`req.file`; a part over the size limit is rejected before the handler runs
(`none`); otherwise the part is written to `uploadsDir` under the name the
`filename` callback returns at clock reading `now`, and `req.file` describes
it. -/
def uploadSingle (env : Env) (now : Int) (audioSize : Option Nat) (body : Body)
    (files : List String) : Option (Request × List String) :=
  match audioSize with
  | none => some ({ file := none, body := body }, files)
  | some size =>
    if size > fileSizeLimit then none
    else
      let staged := pathJoin env.uploadsDir (filename now)
      some ({ file := some { filename := filename now, size := size }, body := body },
        if staged ∈ files then files else staged :: files)

/-! ## The handler of `POST /api/audio-weather` -/

/-- A response sent with `res.status(status).json(body)`: the status and the
object handed to `json`, which serialises it (a property whose value is
`undefined` is left out of the serialised text). -/
structure Response where
  status : Nat
  body : JsVal

/-- The response `res.status(400).json({ error: label })`. -/
def badRequest (label : String) : Response :=
  { status := 400, body := .obj [("error", .str label)] }

/-- The response of the `catch` block:
`res.status(500).json({ error: "Error procesando el audio", details: err.message })`. -/
def serverError (message : String) : Response :=
  { status := 500,
    body := .obj [("error", .str "Error procesando el audio"), ("details", .str message)] }

/-- The success response: `res.json({ transcription, ai_response, location, timestamp })`. -/
def success (env : Env) (text answer : JsVal) (latitude longitude : Option String) : Response :=
  { status := 200,
    body := .obj [("transcription", text), ("ai_response", answer),
      ("location", .obj [("latitude", fieldValue latitude), ("longitude", fieldValue longitude)]),
      ("timestamp", .str env.isoNow)] }

/-- The header value of the template literal `Bearer ${process.env.OPENAI_API_KEY}`. -/
def bearer (env : Env) : String :=
  "Bearer " ++ templateField env.OPENAI_API_KEY

/-- The template literal `weatherURL`. -/
def weatherURL (env : Env) (latitude longitude : Option String) : String :=
  "https://api.openweathermap.org/data/2.5/forecast?lat=" ++ templateField latitude
    ++ "&lon=" ++ templateField longitude
    ++ "&appid=" ++ templateField env.OPENWEATHER_KEY ++ "&units=metric&lang=es"

/-- The template literal `prompt`, given the text of `${text}` and of
`${JSON.stringify(weatherData.list[0], null, 2)}`. -/
def promptText (text entry : String) : String :=
  "\nUsuario dijo por voz: \"" ++ text
    ++ "\"\n\nDatos del clima (primer bloque del pronóstico):\n" ++ entry
    ++ "\n\nDa una respuesta amigable, concisa y en español sobre el clima.\n"

/-- The template literal `prompt` of the handler. -/
def buildPrompt (env : Env) (text entry : JsVal) : String :=
  promptText (templateValue env text) (templateField (jsonStringify env entry))

/-- The expression `weatherData.list[0]`. -/
def firstForecast (weatherData : JsVal) : Except String JsVal :=
  match getProp weatherData "list" with
  | .error m => .error m
  | .ok list => getIndex0 list

/-- The expression `aiResponse.data.choices[0].message.content`. -/
def extractAnswer (data : JsVal) : Except String JsVal :=
  match getProp data "choices" with
  | .error m => .error m
  | .ok choices =>
    match getIndex0 choices with
    | .error m => .error m
    | .ok choice =>
      match getProp choice "message" with
      | .error m => .error m
      | .ok message => getProp message "content"

/-- How the `try` block ended: the value of `finalPath`, the outbound requests
made so far, and either the response it returned or the message of the error
it threw. -/
structure TryResult where
  finalPath : Option String
  calls : List Call
  completion : Except String Response

/-- The `try` block of the handler. -/
def tryBlock (env : Env) (req : Request) : TryResult :=
  match req.file with
  | none =>
    { finalPath := none, calls := [],
      completion := .ok (badRequest "No llegó archivo de audio al servidor") }
  | some file =>
    let latitude := req.body.latitude
    let longitude := req.body.longitude
    if falsy latitude || falsy longitude then
      { finalPath := none, calls := [], completion := .ok (badRequest "Faltan coordenadas") }
    else
      let finalPath := pathJoin env.uploadsDir file.filename
      let whisperCall := Call.whisper finalPath (bearer env)
      match env.axios whisperCall with
      | .error m => { finalPath := some finalPath, calls := [whisperCall], completion := .error m }
      | .ok whisperData =>
        match getProp whisperData "text" with
        | .error m =>
          { finalPath := some finalPath, calls := [whisperCall], completion := .error m }
        | .ok text =>
          let weatherCall := Call.weather (weatherURL env latitude longitude)
          match env.axios weatherCall with
          | .error m =>
            { finalPath := some finalPath, calls := [whisperCall, weatherCall],
              completion := .error m }
          | .ok weatherData =>
            match firstForecast weatherData with
            | .error m =>
              { finalPath := some finalPath, calls := [whisperCall, weatherCall],
                completion := .error m }
            | .ok entry =>
              let chatCall := Call.chat (buildPrompt env text entry) (bearer env)
              match env.axios chatCall with
              | .error m =>
                { finalPath := some finalPath, calls := [whisperCall, weatherCall, chatCall],
                  completion := .error m }
              | .ok aiData =>
                match extractAnswer aiData with
                | .error m =>
                  { finalPath := some finalPath, calls := [whisperCall, weatherCall, chatCall],
                    completion := .error m }
                | .ok answer =>
                  { finalPath := some finalPath, calls := [whisperCall, weatherCall, chatCall],
                    completion := .ok (success env text answer latitude longitude) }

/-- An effect of the handler on the outside world. -/
inductive Event where
  | call (c : Call)
  | unlink (path : String)

/-- What one run of the handler leaves behind: the response it sent, its
effects in order, the paths that exist afterwards, and the message of the
exception that escaped it (if any). -/
structure Outcome where
  response : Response
  events : List Event
  files : List String
  fault : Option String

/-- The handler: the `try` block, the `catch` block turning a thrown error into
the 500 response, and the `finally` block deleting `finalPath` when it was
assigned (an assigned `finalPath` is a non-empty string) and the path exists.
An exception of `fs.unlinkSync` is thrown from `finally`, after the response
was sent, and nothing catches it. -/
def handler (env : Env) (req : Request) (files : List String) : Outcome :=
  let t := tryBlock env req
  let response :=
    match t.completion with
    | .ok r => r
    | .error m => serverError m
  let events := t.calls.map Event.call
  match t.finalPath with
  | none => { response := response, events := events, files := files, fault := none }
  | some p =>
    if p ∈ files then
      match env.unlinkSync p with
      | none =>
        { response := response, events := events ++ [Event.unlink p],
          files := files.filter (fun q => q != p), fault := none }
      | some m =>
        { response := response, events := events ++ [Event.unlink p],
          files := files, fault := some m }
    else { response := response, events := events, files := files, fault := none }

/-- The outbound requests among the effects, in order. -/
def callsOf (events : List Event) : List Call :=
  events.filterMap (fun e => match e with
    | .call c => some c
    | .unlink _ => none)

/-- The deletions among the effects, in order. -/
def unlinksOf (events : List Event) : List String :=
  events.filterMap (fun e => match e with
    | .call _ => none
    | .unlink p => some p)

/-! ## A concrete environment

The services answer as in the scenario of the specification: the transcription
is "hace frío", the forecast has one entry with 15 degrees, the generated
answer is "Hoy hace frío, unos 15 grados.". -/

/-- The forecast entry of the scenario. -/
def demoEntry : JsVal :=
  .obj [("main", .obj [("temp", .num 15)])]

/-- The answers of the three services in the scenario. -/
def demoAxios : Call → Except String JsVal
  | .whisper _ _ => .ok (.obj [("text", .str "hace frío")])
  | .weather _ => .ok (.obj [("list", .arr [demoEntry])])
  | .chat _ _ =>
    .ok (.obj [("choices",
      .arr [.obj [("message", .obj [("content", .str "Hoy hace frío, unos 15 grados.")])]])])

/-- The environment of the scenario; deletions succeed. -/
def demoEnv : Env :=
  { uploadsDir := "/srv/backend/uploads"
    OPENAI_API_KEY := some "sk-test"
    OPENWEATHER_KEY := some "ow-test"
    axios := demoAxios
    unlinkSync := fun _ => none
    isoNow := "2024-01-01T00:00:00.000Z"
    stringifyDefined := fun _ => "\x7b \"main\": \x7b \"temp\": 15 \x7d \x7d"
    toStringOther := fun _ => "[object Object]" }

/-- A staged upload. -/
def demoFile : MulterFile :=
  { filename := "audio-1700000000000.m4a", size := 2048 }

/-- The path of the staged upload. -/
def demoPath : String := "/srv/backend/uploads/audio-1700000000000.m4a"

/-- A complete request: audio, latitude 10, longitude 20. -/
def demoRequest : Request :=
  { file := some demoFile, body := { latitude := some "10", longitude := some "20" } }

/-- The scenario with one service failing: every request to `service` is
rejected with `message`, the other services answer as in `demoAxios`. -/
def failingEnv (service : Service) (message : String) : Env :=
  { demoEnv with
    axios := fun c => if c.service = service then .error message else demoAxios c }

/-- The scenario with a failing deletion: `fs.unlinkSync` throws an error with
the given message. -/
def lockedEnv (message : String) : Env :=
  { demoEnv with unlinkSync := fun _ => some message }

/-- The scenario with a forecast that has no entries. -/
def emptyForecastEnv : Env :=
  { demoEnv with
    axios := fun c =>
      match c with
      | .weather _ => .ok (.obj [("list", .arr [])])
      | other => demoAxios other }

/-- A downstream step of a validated request fails with message `m`: the
transcription call, reading `data.text`, the weather call, reading
`data.list[0]`, the summarization call, or reading
`data.choices[0].message.content`, each reached only when the steps before it
succeeded. -/
def DownstreamFailure (env : Env) (file : MulterFile) (latitude longitude : Option String)
    (m : String) : Prop :=
  env.axios (Call.whisper (pathJoin env.uploadsDir file.filename) (bearer env)) = .error m
  ∨ ∃ whisperData,
      env.axios (Call.whisper (pathJoin env.uploadsDir file.filename) (bearer env))
        = .ok whisperData
      ∧ (getProp whisperData "text" = .error m
        ∨ ∃ text, getProp whisperData "text" = .ok text
          ∧ (env.axios (Call.weather (weatherURL env latitude longitude)) = .error m
            ∨ ∃ weatherData,
                env.axios (Call.weather (weatherURL env latitude longitude)) = .ok weatherData
                ∧ (firstForecast weatherData = .error m
                  ∨ ∃ entry, firstForecast weatherData = .ok entry
                    ∧ (env.axios (Call.chat (buildPrompt env text entry) (bearer env)) = .error m
                      ∨ ∃ aiData,
                          env.axios (Call.chat (buildPrompt env text entry) (bearer env))
                            = .ok aiData
                          ∧ extractAnswer aiData = .error m))))

/-! ## General facts about the handler -/

theorem callsOf_map_call (cs : List Call) : callsOf (cs.map Event.call) = cs := by
  induction cs <;> simp_all [callsOf]

theorem callsOf_append_unlink (es : List Event) (p : String) :
    callsOf (es ++ [Event.unlink p]) = callsOf es := by
  simp [callsOf]

/-- The response of the handler is the one the try block returned, or the 500
response of the catch block; the clean-up never changes it. -/
theorem handler_response (env : Env) (req : Request) (files : List String) :
    (handler env req files).response =
      match (tryBlock env req).completion with
      | .ok r => r
      | .error m => serverError m := by
  unfold handler
  generalize tryBlock env req = t
  obtain ⟨fp, cs, comp⟩ := t
  cases fp with
  | none => rfl
  | some p =>
    by_cases hp : p ∈ files
    · cases hu : env.unlinkSync p <;> simp [hp, hu]
    · simp [hp]

/-- The outbound requests of the handler are those of the try block. -/
theorem handler_calls (env : Env) (req : Request) (files : List String) :
    callsOf (handler env req files).events = (tryBlock env req).calls := by
  unfold handler
  generalize tryBlock env req = t
  obtain ⟨fp, cs, comp⟩ := t
  cases fp with
  | none => simp [callsOf_map_call]
  | some p =>
    by_cases hp : p ∈ files
    · cases hu : env.unlinkSync p <;> simp [hp, hu, callsOf_append_unlink, callsOf_map_call]
    · simp [hp, callsOf_map_call]

/-- Without an assigned path the handler has no effect but the calls of the
try block. -/
theorem handler_no_path (env : Env) (req : Request) (files : List String)
    (h : (tryBlock env req).finalPath = none) :
    (handler env req files).events = (tryBlock env req).calls.map Event.call
      ∧ (handler env req files).files = files ∧ (handler env req files).fault = none := by
  unfold handler
  simp [h]

theorem tryBlock_no_file (env : Env) (req : Request) (h : req.file = none) :
    tryBlock env req =
      { finalPath := none, calls := [],
        completion := .ok (badRequest "No llegó archivo de audio al servidor") } := by
  unfold tryBlock
  simp [h]

theorem tryBlock_no_coordinates (env : Env) (req : Request) (file : MulterFile)
    (hf : req.file = some file)
    (h : falsy req.body.latitude = true ∨ falsy req.body.longitude = true) :
    tryBlock env req =
      { finalPath := none, calls := [], completion := .ok (badRequest "Faltan coordenadas") } := by
  unfold tryBlock
  rcases h with h | h <;> simp [hf, h]

theorem falsy_iff (v : Option String) : falsy v = true ↔ v = none ∨ v = some "" := by
  cases v <;> simp [falsy]

theorem falsy_some_of_ne (a : String) (h : a ≠ "") : falsy (some a) = false := by
  simp [falsy, h]

/-- A request that passes validation records its staged path, calls the
transcription service first, and can only return the success response from the
try block. -/
theorem tryBlock_valid (env : Env) (req : Request) (file : MulterFile)
    (hf : req.file = some file) (hlat : falsy req.body.latitude = false)
    (hlon : falsy req.body.longitude = false) :
    (tryBlock env req).finalPath = some (pathJoin env.uploadsDir file.filename)
      ∧ (tryBlock env req).calls.head?
          = some (Call.whisper (pathJoin env.uploadsDir file.filename) (bearer env))
      ∧ ∀ r, (tryBlock env req).completion = .ok r → r.status = 200 := by
  unfold tryBlock
  simp only [hf, hlat, hlon, Bool.or_self, Bool.false_eq_true, if_false]
  repeat' split
  all_goals simp [success]

/-! ## Validation -/

/-- C2: a request without an audio file is answered with status 400 and the
body `{ error: "No llegó archivo de audio al servidor" }`, whatever its
coordinate fields are; no external service is called, no deletion is
attempted, and the staging directory is left as it was. -/
theorem missing_audio_bad_request (env : Env) (req : Request) (files : List String)
    (h : req.file = none) :
    (handler env req files).response.status = 400
      ∧ (handler env req files).response.body
          = .obj [("error", .str "No llegó archivo de audio al servidor")]
      ∧ callsOf (handler env req files).events = []
      ∧ unlinksOf (handler env req files).events = []
      ∧ (handler env req files).files = files
      ∧ (handler env req files).fault = none := by
  have ht := tryBlock_no_file env req h
  have hp := handler_no_path env req files (by rw [ht])
  have hr := handler_response env req files
  rw [ht] at hr hp
  refine ⟨by rw [hr]; rfl, by rw [hr]; rfl, ?_, ?_, hp.2.1, hp.2.2⟩
  · rw [hp.1]; rfl
  · rw [hp.1]; rfl

/-- The scenario of C2: audio omitted, latitude 10, longitude 20. -/
theorem missing_audio_bad_request_witness :
    (handler demoEnv { file := none, body := { latitude := some "10", longitude := some "20" } }
        [demoPath]).response.status = 400
      ∧ (handler demoEnv
          { file := none, body := { latitude := some "10", longitude := some "20" } }
          [demoPath]).response.body
          = .obj [("error", .str "No llegó archivo de audio al servidor")]
      ∧ callsOf (handler demoEnv
          { file := none, body := { latitude := some "10", longitude := some "20" } }
          [demoPath]).events = []
      ∧ unlinksOf (handler demoEnv
          { file := none, body := { latitude := some "10", longitude := some "20" } }
          [demoPath]).events = []
      ∧ (handler demoEnv
          { file := none, body := { latitude := some "10", longitude := some "20" } }
          [demoPath]).files = [demoPath]
      ∧ (handler demoEnv
          { file := none, body := { latitude := some "10", longitude := some "20" } }
          [demoPath]).fault = none :=
  missing_audio_bad_request demoEnv
    { file := none, body := { latitude := some "10", longitude := some "20" } } [demoPath] rfl

/-- C3: with an audio file present, the response is status 400 with body
`{ error: "Faltan coordenadas" }` exactly when latitude or longitude is absent
or empty, and then no external service is called; every pair of non-empty
coordinate strings passes, and the first outbound request is the transcription
of the staged file. -/
theorem coordinates_presence_check (env : Env) (req : Request) (file : MulterFile)
    (files : List String) (hf : req.file = some file) :
    (((handler env req files).response.status = 400
          ∧ (handler env req files).response.body = .obj [("error", .str "Faltan coordenadas")])
        ↔ (req.body.latitude = none ∨ req.body.latitude = some ""
            ∨ req.body.longitude = none ∨ req.body.longitude = some ""))
      ∧ ((req.body.latitude = none ∨ req.body.latitude = some ""
            ∨ req.body.longitude = none ∨ req.body.longitude = some "")
          → callsOf (handler env req files).events = [])
      ∧ (∀ a b : String, req.body.latitude = some a → req.body.longitude = some b
          → a ≠ "" → b ≠ ""
          → (callsOf (handler env req files).events).head?
              = some (Call.whisper (pathJoin env.uploadsDir file.filename) (bearer env))) := by
  have hr := handler_response env req files
  have hc := handler_calls env req files
  have hmissing : (req.body.latitude = none ∨ req.body.latitude = some ""
      ∨ req.body.longitude = none ∨ req.body.longitude = some "")
      → tryBlock env req = TryResult.mk none [] (.ok (badRequest "Faltan coordenadas")) := by
    intro h
    apply tryBlock_no_coordinates env req file hf
    rcases h with h | h | h | h
    · exact Or.inl ((falsy_iff _).2 (Or.inl h))
    · exact Or.inl ((falsy_iff _).2 (Or.inr h))
    · exact Or.inr ((falsy_iff _).2 (Or.inl h))
    · exact Or.inr ((falsy_iff _).2 (Or.inr h))
  refine ⟨⟨?_, ?_⟩, ?_, ?_⟩
  · intro hresp
    by_contra hne
    have hlat : falsy req.body.latitude = false := by
      cases hv : falsy req.body.latitude
      · rfl
      · rcases (falsy_iff _).1 hv with h | h
        · exact absurd (Or.inl h) hne
        · exact absurd (Or.inr (Or.inl h)) hne
    have hlon : falsy req.body.longitude = false := by
      cases hv : falsy req.body.longitude
      · rfl
      · rcases (falsy_iff _).1 hv with h | h
        · exact absurd (Or.inr (Or.inr (Or.inl h))) hne
        · exact absurd (Or.inr (Or.inr (Or.inr h))) hne
    have hv := (tryBlock_valid env req file hf hlat hlon).2.2
    cases hcomp : (tryBlock env req).completion with
    | ok r =>
      rw [hcomp] at hr
      have h200 := hv r hcomp
      have h400 := hresp.1
      rw [hr, h200] at h400
      exact absurd h400 (by decide)
    | error m =>
      rw [hcomp] at hr
      have h400 := hresp.1
      rw [hr] at h400
      simp [serverError] at h400
  · intro h
    rw [hr, hmissing h]
    exact ⟨rfl, rfl⟩
  · intro h
    rw [hc, hmissing h]
  · intro a b ha hb hane hbne
    rw [hc]
    exact (tryBlock_valid env req file hf (by rw [ha]; exact falsy_some_of_ne a hane)
      (by rw [hb]; exact falsy_some_of_ne b hbne)).2.1

/-- An instance of C3: audio present, latitude absent, longitude 20, and the
non-numeric pair "0", "abc". -/
theorem coordinates_presence_check_witness :
    ((handler demoEnv { file := some demoFile, body := { latitude := none, longitude := some "20" } }
          [demoPath]).response.status = 400
        ∧ callsOf (handler demoEnv
            { file := some demoFile, body := { latitude := none, longitude := some "20" } }
            [demoPath]).events = [])
      ∧ (callsOf (handler demoEnv
            { file := some demoFile, body := { latitude := some "0", longitude := some "abc" } }
            [demoPath]).events).head?
          = some (Call.whisper (pathJoin demoEnv.uploadsDir demoFile.filename) (bearer demoEnv)) :=
  ⟨⟨((coordinates_presence_check demoEnv
        { file := some demoFile, body := { latitude := none, longitude := some "20" } }
        demoFile [demoPath] rfl).1.2 (Or.inl rfl)).1,
      (coordinates_presence_check demoEnv
        { file := some demoFile, body := { latitude := none, longitude := some "20" } }
        demoFile [demoPath] rfl).2.1 (Or.inl rfl)⟩,
    (coordinates_presence_check demoEnv
      { file := some demoFile, body := { latitude := some "0", longitude := some "abc" } }
      demoFile [demoPath] rfl).2.2 "0" "abc" rfl rfl (by decide) (by decide)⟩

/-! ## The pipeline -/

/-- C4: for a valid request, when the transcription service returns text `t`,
the weather service returns a forecast with a non-empty list, and the first
choice of the summarization service has content `a`, the response has status
200 and its body is `transcription: t`, `ai_response: a`, `location` with the
latitude and longitude strings as submitted, and a `timestamp`. -/
theorem success_response_echoes (env : Env) (req : Request) (file : MulterFile)
    (files : List String) (la lo t a : String)
    (whisperData weatherData entry aiData choice message : JsVal) (entries choices : List JsVal)
    (hf : req.file = some file)
    (hla : req.body.latitude = some la) (hlo : req.body.longitude = some lo)
    (hla0 : la ≠ "") (hlo0 : lo ≠ "")
    (hw : env.axios (Call.whisper (pathJoin env.uploadsDir file.filename) (bearer env))
      = .ok whisperData)
    (ht : getProp whisperData "text" = .ok (.str t))
    (hwe : env.axios (Call.weather (weatherURL env (some la) (some lo))) = .ok weatherData)
    (hl : getProp weatherData "list" = .ok (.arr (entry :: entries)))
    (hc : env.axios (Call.chat (buildPrompt env (.str t) entry) (bearer env)) = .ok aiData)
    (hch : getProp aiData "choices" = .ok (.arr (choice :: choices)))
    (hm : getProp choice "message" = .ok message)
    (ha : getProp message "content" = .ok (.str a)) :
    (handler env req files).response.status = 200
      ∧ (handler env req files).response.body
          = .obj [("transcription", .str t), ("ai_response", .str a),
              ("location", .obj [("latitude", .str la), ("longitude", .str lo)]),
              ("timestamp", .str env.isoNow)] := by
  have hr := handler_response env req files
  have htry : (tryBlock env req).completion
      = .ok (success env (.str t) (.str a) (some la) (some lo)) := by
    unfold tryBlock
    simp [hf, hla, hlo, falsy, hla0, hlo0, hw, ht, hwe, hl, hc, hch, hm, ha, firstForecast,
      getIndex0, extractAnswer]
  rw [htry] at hr
  rw [hr]
  exact ⟨rfl, rfl⟩

/-- The scenario of C4: transcription "hace frío", answer "Hoy hace frío, unos
15 grados.", latitude "10", longitude "20". -/
theorem success_response_echoes_witness :
    (handler demoEnv demoRequest [demoPath]).response.status = 200
      ∧ (handler demoEnv demoRequest [demoPath]).response.body
          = .obj [("transcription", .str "hace frío"),
              ("ai_response", .str "Hoy hace frío, unos 15 grados."),
              ("location", .obj [("latitude", .str "10"), ("longitude", .str "20")]),
              ("timestamp", .str "2024-01-01T00:00:00.000Z")] :=
  success_response_echoes demoEnv demoRequest demoFile [demoPath] "10" "20" "hace frío"
    "Hoy hace frío, unos 15 grados."
    (.obj [("text", .str "hace frío")]) (.obj [("list", .arr [demoEntry])]) demoEntry
    (.obj [("choices",
      .arr [.obj [("message", .obj [("content", .str "Hoy hace frío, unos 15 grados.")])]])])
    (.obj [("message", .obj [("content", .str "Hoy hace frío, unos 15 grados.")])])
    (.obj [("content", .str "Hoy hace frío, unos 15 grados.")]) [] []
    rfl rfl rfl (by decide) (by decide) rfl (by simp [getProp, List.lookup]) rfl
    (by simp [getProp, List.lookup]) rfl (by simp [getProp, List.lookup])
    (by simp [getProp, List.lookup]) (by simp [getProp, List.lookup])

/-- The try block of a validated request whose step fails with `m` throws `m`. -/
theorem tryBlock_downstream_failure (env : Env) (req : Request) (file : MulterFile) (m : String)
    (hf : req.file = some file) (hlat : falsy req.body.latitude = false)
    (hlon : falsy req.body.longitude = false)
    (h : DownstreamFailure env file req.body.latitude req.body.longitude m) :
    (tryBlock env req).completion = .error m := by
  unfold tryBlock
  simp only [hf, hlat, hlon, Bool.or_self, Bool.false_eq_true, if_false]
  rcases h with h | ⟨wd, hw, h⟩
  · simp [h]
  · rcases h with h | ⟨text, ht, h⟩
    · simp [hw, h]
    · rcases h with h | ⟨weatherData, hwe, h⟩
      · simp [hw, ht, h]
      · rcases h with h | ⟨entry, he, h⟩
        · simp [hw, ht, hwe, h]
        · rcases h with h | ⟨aiData, hc, h⟩
          · simp [hw, ht, hwe, he, h]
          · simp [hw, ht, hwe, he, hc, h]

/-- C5: for a request that passes validation, a failing transcription call is
the only outbound request and the response is 500; when the transcription call
succeeds and the weather call fails, no request goes to the summarization
service and the response is 500. -/
theorem pipeline_short_circuit (env : Env) (req : Request) (file : MulterFile)
    (files : List String) (hf : req.file = some file)
    (hlat : falsy req.body.latitude = false) (hlon : falsy req.body.longitude = false) :
    (∀ m, env.axios (Call.whisper (pathJoin env.uploadsDir file.filename) (bearer env))
          = .error m
        → callsOf (handler env req files).events
            = [Call.whisper (pathJoin env.uploadsDir file.filename) (bearer env)]
          ∧ (∀ c ∈ callsOf (handler env req files).events,
              c.service ≠ .weather ∧ c.service ≠ .summarization)
          ∧ (handler env req files).response.status = 500)
      ∧ (∀ whisperData m,
          env.axios (Call.whisper (pathJoin env.uploadsDir file.filename) (bearer env))
            = .ok whisperData
          → env.axios (Call.weather (weatherURL env req.body.latitude req.body.longitude))
            = .error m
          → (∀ c ∈ callsOf (handler env req files).events, c.service ≠ .summarization)
            ∧ (handler env req files).response.status = 500) := by
  have hr := handler_response env req files
  have hc := handler_calls env req files
  constructor
  · intro m hw
    have htry : tryBlock env req
        = TryResult.mk (some (pathJoin env.uploadsDir file.filename))
            [Call.whisper (pathJoin env.uploadsDir file.filename) (bearer env)] (.error m) := by
      unfold tryBlock
      simp [hf, hlat, hlon, hw]
    rw [htry] at hr hc
    rw [hr, hc]
    refine ⟨rfl, ?_, rfl⟩
    intro c hmem
    simp only [List.mem_singleton] at hmem
    subst hmem
    simp [Call.service]
  · intro whisperData m hw hwe
    have htry : (tryBlock env req).completion.isOk = false
        ∧ ∀ c ∈ (tryBlock env req).calls, c.service ≠ .summarization := by
      unfold tryBlock
      simp only [hf, hlat, hlon, Bool.or_self, Bool.false_eq_true, if_false, hw]
      cases getProp whisperData "text" with
      | error e => simp [Except.isOk, Except.toBool, Call.service]
      | ok text => simp [hwe, Except.isOk, Except.toBool, Call.service]
    rw [hc]
    refine ⟨htry.2, ?_⟩
    rw [hr]
    cases hcomp : (tryBlock env req).completion with
    | ok r =>
      have := htry.1
      rw [hcomp] at this
      simp [Except.isOk, Except.toBool] at this
    | error e => rfl

/-- Instances of C5: the scenario with the transcription service failing, and
with the weather service failing. -/
theorem pipeline_short_circuit_witness :
    (callsOf (handler (failingEnv .transcription "Request failed with status code 401")
          demoRequest [demoPath]).events
        = [Call.whisper demoPath "Bearer sk-test"]
      ∧ (handler (failingEnv .transcription "Request failed with status code 401")
          demoRequest [demoPath]).response.status = 500)
    ∧ ((∀ c ∈ callsOf (handler (failingEnv .weather "Request failed with status code 404")
          demoRequest [demoPath]).events, c.service ≠ .summarization)
      ∧ (handler (failingEnv .weather "Request failed with status code 404")
          demoRequest [demoPath]).response.status = 500) :=
  ⟨⟨((pipeline_short_circuit (failingEnv .transcription "Request failed with status code 401")
        demoRequest demoFile [demoPath] rfl rfl rfl).1
        "Request failed with status code 401" rfl).1,
      ((pipeline_short_circuit (failingEnv .transcription "Request failed with status code 401")
        demoRequest demoFile [demoPath] rfl rfl rfl).1
        "Request failed with status code 401" rfl).2.2⟩,
    (pipeline_short_circuit (failingEnv .weather "Request failed with status code 404")
      demoRequest demoFile [demoPath] rfl rfl rfl).2
      (.obj [("text", .str "hace frío")]) "Request failed with status code 404" rfl rfl⟩

/-- C6: for a request that passes validation, when a downstream step
(transcription, weather, summarization, or reading their results) fails with
message `m`, the response is status 500 with body exactly
`{ error: "Error procesando el audio", details: m }`: the same label for every
step, the underlying message as details, and no other field. -/
theorem downstream_failure_response (env : Env) (req : Request) (file : MulterFile)
    (files : List String) (m : String) (hf : req.file = some file)
    (hlat : falsy req.body.latitude = false) (hlon : falsy req.body.longitude = false)
    (h : DownstreamFailure env file req.body.latitude req.body.longitude m) :
    (handler env req files).response.status = 500
      ∧ (handler env req files).response.body
          = .obj [("error", .str "Error procesando el audio"), ("details", .str m)] := by
  have hr := handler_response env req files
  rw [tryBlock_downstream_failure env req file m hf hlat hlon h] at hr
  rw [hr]
  exact ⟨rfl, rfl⟩

/-- An instance of C6: the summarization service fails after the two earlier
stages succeeded. -/
theorem downstream_failure_response_witness :
    (handler (failingEnv .summarization "timeout of 5000ms exceeded")
        demoRequest [demoPath]).response.status = 500
      ∧ (handler (failingEnv .summarization "timeout of 5000ms exceeded")
          demoRequest [demoPath]).response.body
          = .obj [("error", .str "Error procesando el audio"),
              ("details", .str "timeout of 5000ms exceeded")] :=
  downstream_failure_response (failingEnv .summarization "timeout of 5000ms exceeded")
    demoRequest demoFile [demoPath] "timeout of 5000ms exceeded" rfl rfl rfl
    (Or.inr ⟨.obj [("text", .str "hace frío")], rfl, Or.inr ⟨.str "hace frío", rfl,
      Or.inr ⟨.obj [("list", .arr [demoEntry])], rfl, Or.inr ⟨demoEntry, rfl,
        Or.inl rfl⟩⟩⟩⟩)

/-- The outbound requests of the try block go to the services in the order
transcription, weather, summarization, each at most once, and every request
but the last one was answered successfully. -/
theorem tryBlock_calls_ordered (env : Env) (req : Request) :
    (tryBlock env req).calls.map Call.service
        <+: [Service.transcription, Service.weather, Service.summarization]
      ∧ ∀ c ∈ (tryBlock env req).calls.dropLast, ∃ data, env.axios c = .ok data := by
  unfold tryBlock
  cases hf : req.file with
  | none => simp
  | some file =>
    dsimp only
    cases hv : (falsy req.body.latitude || falsy req.body.longitude) with
    | true => simp
    | false =>
      simp only [Bool.false_eq_true, if_false]
      cases hw : env.axios (Call.whisper (pathJoin env.uploadsDir file.filename) (bearer env)) with
      | error m => simp [Call.service, List.prefix_iff_eq_take]
      | ok whisperData =>
        dsimp only
        cases getProp whisperData "text" with
        | error m => simp [Call.service, List.prefix_iff_eq_take]
        | ok text =>
          dsimp only
          cases hwe : env.axios
              (Call.weather (weatherURL env req.body.latitude req.body.longitude)) with
          | error m => simp [Call.service, List.prefix_iff_eq_take, hw]
          | ok weatherData =>
            dsimp only
            cases firstForecast weatherData with
            | error m => simp [Call.service, List.prefix_iff_eq_take, hw]
            | ok entry =>
              dsimp only
              cases env.axios (Call.chat (buildPrompt env text entry) (bearer env)) with
              | error m => simp [Call.service, hw, hwe]
              | ok aiData =>
                dsimp only
                cases extractAnswer aiData with
                | error m => simp [Call.service, hw, hwe]
                | ok answer => simp [Call.service, hw, hwe]

/-- A request to a later service is made only when every earlier stage
succeeded, the reading of its result included: the weather request needs a
transcription answer whose `text` could be read, the summarization request
needs a weather answer whose `list[0]` could be read. -/
theorem tryBlock_calls_after_success (env : Env) (req : Request) :
    (∀ c ∈ (tryBlock env req).calls, c.service = Service.weather →
        ∃ w ∈ (tryBlock env req).calls, w.service = Service.transcription
          ∧ ∃ data text, env.axios w = .ok data ∧ getProp data "text" = .ok text)
      ∧ (∀ c ∈ (tryBlock env req).calls, c.service = Service.summarization →
        ∃ w ∈ (tryBlock env req).calls, w.service = Service.weather
          ∧ ∃ data entry, env.axios w = .ok data ∧ firstForecast data = .ok entry) := by
  unfold tryBlock
  cases hf : req.file with
  | none => simp
  | some file =>
    dsimp only
    cases hv : (falsy req.body.latitude || falsy req.body.longitude) with
    | true => simp
    | false =>
      simp only [Bool.false_eq_true, if_false]
      cases hw : env.axios (Call.whisper (pathJoin env.uploadsDir file.filename) (bearer env)) with
      | error m => simp [Call.service]
      | ok whisperData =>
        dsimp only
        cases ht : getProp whisperData "text" with
        | error m => simp [Call.service]
        | ok text =>
          dsimp only
          have hfirst : ∃ w ∈ [Call.whisper (pathJoin env.uploadsDir file.filename) (bearer env)],
              w.service = Service.transcription
                ∧ ∃ data text, env.axios w = .ok data ∧ getProp data "text" = .ok text :=
            ⟨_, List.mem_singleton.2 rfl, rfl, whisperData, text, hw, ht⟩
          obtain ⟨w, hwmem, hwok⟩ := hfirst
          cases hwe : env.axios
              (Call.weather (weatherURL env req.body.latitude req.body.longitude)) with
          | error m =>
            refine ⟨fun _ _ _ => ⟨w, ?_, hwok⟩, ?_⟩
            · rw [List.mem_singleton.1 hwmem]; simp
            · simp [Call.service]
          | ok weatherData =>
            dsimp only
            cases hfc : firstForecast weatherData with
            | error m =>
              refine ⟨fun _ _ _ => ⟨w, ?_, hwok⟩, ?_⟩
              · rw [List.mem_singleton.1 hwmem]; simp
              · simp [Call.service]
            | ok entry =>
              dsimp only
              have hsecond : ∀ rest : List Call, ∃ v ∈
                  Call.whisper (pathJoin env.uploadsDir file.filename) (bearer env)
                    :: Call.weather (weatherURL env req.body.latitude req.body.longitude)
                    :: rest,
                  v.service = Service.weather
                    ∧ ∃ data entry, env.axios v = .ok data ∧ firstForecast data = .ok entry :=
                fun rest => ⟨Call.weather (weatherURL env req.body.latitude req.body.longitude),
                  by simp, rfl, weatherData, entry, hwe, hfc⟩
              cases env.axios (Call.chat (buildPrompt env text entry) (bearer env)) with
              | error m =>
                refine ⟨fun _ _ _ => ⟨w, ?_, hwok⟩, fun _ _ _ => hsecond _⟩
                rw [List.mem_singleton.1 hwmem]; simp
              | ok aiData =>
                dsimp only
                cases extractAnswer aiData with
                | error m =>
                  refine ⟨fun _ _ _ => ⟨w, ?_, hwok⟩, fun _ _ _ => hsecond _⟩
                  rw [List.mem_singleton.1 hwmem]; simp
                | ok answer =>
                  refine ⟨fun _ _ _ => ⟨w, ?_, hwok⟩, fun _ _ _ => hsecond _⟩
                  rw [List.mem_singleton.1 hwmem]; simp

/-- C8: for every request the outbound requests of the handler go to the
services in the order transcription, weather, summarization, each service at
most once (the services called form an initial segment of that order); every
outbound request that is followed by another one returned successfully, so a
failed call is always the last one; and a request to a later service is made
only when the stage before it succeeded as a whole: the weather request only
when the transcription call returned and its `text` could be read, the
summarization request only when the weather call returned and its `list[0]`
could be read. A failure at any stage, in a call or in reading its result, is
therefore followed by no further outbound request. -/
theorem calls_once_in_order (env : Env) (req : Request) (files : List String) :
    (callsOf (handler env req files).events).map Call.service
        <+: [Service.transcription, Service.weather, Service.summarization]
      ∧ (∀ c ∈ (callsOf (handler env req files).events).dropLast,
          ∃ data, env.axios c = .ok data)
      ∧ (∀ service, (callsOf (handler env req files).events).countP
          (fun c => decide (c.service = service)) ≤ 1)
      ∧ (∀ c ∈ callsOf (handler env req files).events, c.service = Service.weather →
          ∃ w ∈ callsOf (handler env req files).events, w.service = Service.transcription
            ∧ ∃ data text, env.axios w = .ok data ∧ getProp data "text" = .ok text)
      ∧ (∀ c ∈ callsOf (handler env req files).events, c.service = Service.summarization →
          ∃ w ∈ callsOf (handler env req files).events, w.service = Service.weather
            ∧ ∃ data entry, env.axios w = .ok data ∧ firstForecast data = .ok entry) := by
  rw [handler_calls]
  obtain ⟨hpre, hok⟩ := tryBlock_calls_ordered env req
  obtain ⟨hweather, hchat⟩ := tryBlock_calls_after_success env req
  refine ⟨hpre, hok, ?_, hweather, hchat⟩
  intro service
  have hcount : (tryBlock env req).calls.countP (fun c => decide (c.service = service))
      = ((tryBlock env req).calls.map Call.service).count service := by
    rw [List.count, List.countP_map]
    congr 1
  rw [hcount]
  calc ((tryBlock env req).calls.map Call.service).count service
      ≤ [Service.transcription, Service.weather, Service.summarization].count service :=
        hpre.sublist.count_le service
    _ ≤ 1 := by cases service <;> decide

/-! ## The empty forecast list -/

/-- C9: for a request that passes validation and whose transcription succeeds,
when the weather service returns a forecast list with zero entries, selecting
the first entry yields `undefined` and no error; the handler goes on to call
the summarization service, as its third and last outbound request, with the
prompt of the template literal in which the text `undefined` stands where the
forecast entry would be (written out below, with the transcription `t` quoted
on its first line when the transcription is the string `t`); and the response
is decided by that call alone: status 500 with the body `error`, `details`
when the call or the reading of its answer fails with a message, status 200
with the transcription, the answer, the location and the timestamp
otherwise. -/
theorem empty_forecast_reaches_summarization (env : Env) (req : Request) (file : MulterFile)
    (files : List String) (whisperData text weatherData : JsVal)
    (hf : req.file = some file)
    (hlat : falsy req.body.latitude = false) (hlon : falsy req.body.longitude = false)
    (hw : env.axios (Call.whisper (pathJoin env.uploadsDir file.filename) (bearer env))
      = .ok whisperData)
    (ht : getProp whisperData "text" = .ok text)
    (hwe : env.axios (Call.weather (weatherURL env req.body.latitude req.body.longitude))
      = .ok weatherData)
    (hl : getProp weatherData "list" = .ok (.arr [])) :
    firstForecast weatherData = .ok .undefined
      ∧ callsOf (handler env req files).events
          = [Call.whisper (pathJoin env.uploadsDir file.filename) (bearer env),
              Call.weather (weatherURL env req.body.latitude req.body.longitude),
              Call.chat
                ("\nUsuario dijo por voz: \"" ++ templateValue env text
                  ++ "\"\n\nDatos del clima (primer bloque del pronóstico):\n" ++ "undefined"
                  ++ "\n\nDa una respuesta amigable, concisa y en español sobre el clima.\n")
                (bearer env)]
      ∧ (∀ t : String, text = .str t →
          callsOf (handler env req files).events
            = [Call.whisper (pathJoin env.uploadsDir file.filename) (bearer env),
                Call.weather (weatherURL env req.body.latitude req.body.longitude),
                Call.chat
                  ("\nUsuario dijo por voz: \"" ++ t
                    ++ "\"\n\nDatos del clima (primer bloque del pronóstico):\n" ++ "undefined"
                    ++ "\n\nDa una respuesta amigable, concisa y en español sobre el clima.\n")
                  (bearer env)])
      ∧ (handler env req files).response
          = match env.axios
              (Call.chat
                ("\nUsuario dijo por voz: \"" ++ templateValue env text
                  ++ "\"\n\nDatos del clima (primer bloque del pronóstico):\n" ++ "undefined"
                  ++ "\n\nDa una respuesta amigable, concisa y en español sobre el clima.\n")
                (bearer env)) with
            | .error m =>
              Response.mk 500
                (.obj [("error", .str "Error procesando el audio"), ("details", .str m)])
            | .ok aiData =>
              match extractAnswer aiData with
              | .error m =>
                Response.mk 500
                  (.obj [("error", .str "Error procesando el audio"), ("details", .str m)])
              | .ok answer =>
                Response.mk 200
                  (.obj [("transcription", text), ("ai_response", answer),
                    ("location", .obj [("latitude", fieldValue req.body.latitude),
                      ("longitude", fieldValue req.body.longitude)]),
                    ("timestamp", .str env.isoNow)]) := by
  have hfirst : firstForecast weatherData = .ok .undefined := by
    simp [firstForecast, hl, getIndex0]
  have hprompt : buildPrompt env text .undefined
      = "\nUsuario dijo por voz: \"" ++ templateValue env text
          ++ "\"\n\nDatos del clima (primer bloque del pronóstico):\n" ++ "undefined"
          ++ "\n\nDa una respuesta amigable, concisa y en español sobre el clima.\n" := rfl
  have hcalls : callsOf (handler env req files).events
      = [Call.whisper (pathJoin env.uploadsDir file.filename) (bearer env),
          Call.weather (weatherURL env req.body.latitude req.body.longitude),
          Call.chat
            ("\nUsuario dijo por voz: \"" ++ templateValue env text
              ++ "\"\n\nDatos del clima (primer bloque del pronóstico):\n" ++ "undefined"
              ++ "\n\nDa una respuesta amigable, concisa y en español sobre el clima.\n")
            (bearer env)] := by
    rw [handler_calls]
    unfold tryBlock
    simp only [hf, hlat, hlon, Bool.or_self, Bool.false_eq_true, if_false, hw, ht, hwe, hfirst,
      hprompt]
    cases env.axios (Call.chat
        ("\nUsuario dijo por voz: \"" ++ templateValue env text
          ++ "\"\n\nDatos del clima (primer bloque del pronóstico):\n" ++ "undefined"
          ++ "\n\nDa una respuesta amigable, concisa y en español sobre el clima.\n")
        (bearer env)) with
    | error m => rfl
    | ok aiData =>
      dsimp only
      cases extractAnswer aiData <;> rfl
  refine ⟨hfirst, hcalls, ?_, ?_⟩
  · intro t htext
    rw [hcalls, htext]
    rfl
  · rw [handler_response]
    unfold tryBlock
    simp only [hf, hlat, hlon, Bool.or_self, Bool.false_eq_true, if_false, hw, ht, hwe, hfirst,
      hprompt]
    cases env.axios (Call.chat
        ("\nUsuario dijo por voz: \"" ++ templateValue env text
          ++ "\"\n\nDatos del clima (primer bloque del pronóstico):\n" ++ "undefined"
          ++ "\n\nDa una respuesta amigable, concisa y en español sobre el clima.\n")
        (bearer env)) with
    | error m => rfl
    | ok aiData =>
      dsimp only
      cases extractAnswer aiData <;> rfl

/-- An instance of C9: the scenario with an empty forecast list. The prompt
sent to the summarization service reads `undefined` where the forecast entry
would be; the service answers, so the response is the success response. -/
theorem empty_forecast_reaches_summarization_witness :
    firstForecast (.obj [("list", .arr [])]) = .ok .undefined
      ∧ callsOf (handler emptyForecastEnv demoRequest [demoPath]).events
          = [Call.whisper "/srv/backend/uploads/audio-1700000000000.m4a" "Bearer sk-test",
              Call.weather
                "https://api.openweathermap.org/data/2.5/forecast?lat=10&lon=20&appid=ow-test&units=metric&lang=es",
              Call.chat
                "\nUsuario dijo por voz: \"hace frío\"\n\nDatos del clima (primer bloque del pronóstico):\nundefined\n\nDa una respuesta amigable, concisa y en español sobre el clima.\n"
                "Bearer sk-test"]
      ∧ (handler emptyForecastEnv demoRequest [demoPath]).response
          = Response.mk 200
              (.obj [("transcription", .str "hace frío"),
                ("ai_response", .str "Hoy hace frío, unos 15 grados."),
                ("location", .obj [("latitude", .str "10"), ("longitude", .str "20")]),
                ("timestamp", .str "2024-01-01T00:00:00.000Z")]) :=
  ⟨(empty_forecast_reaches_summarization emptyForecastEnv demoRequest demoFile [demoPath]
      (.obj [("text", .str "hace frío")]) (.str "hace frío") (.obj [("list", .arr [])])
      rfl rfl rfl rfl rfl rfl rfl).1,
    (empty_forecast_reaches_summarization emptyForecastEnv demoRequest demoFile [demoPath]
      (.obj [("text", .str "hace frío")]) (.str "hace frío") (.obj [("list", .arr [])])
      rfl rfl rfl rfl rfl rfl rfl).2.2.1 "hace frío" rfl,
    (empty_forecast_reaches_summarization emptyForecastEnv demoRequest demoFile [demoPath]
      (.obj [("text", .str "hace frío")]) (.str "hace frío") (.obj [("list", .arr [])])
      rfl rfl rfl rfl rfl rfl rfl).2.2.2⟩

/-! ## Clean-up -/

/-- C10: for a request whose staged path was recorded and still exists at
clean-up, when deleting the staged file fails with message `m`, the failure
escapes the handler as an uncaught exception; the response was already sent
with status 200 or 500 and is the same response as when the deletion
succeeds, so the failure is not turned into an error response. The file
stays in the staging directory. -/
theorem unlink_failure_escapes (env : Env) (req : Request) (file : MulterFile)
    (files : List String) (m : String) (hf : req.file = some file)
    (hlat : falsy req.body.latitude = false) (hlon : falsy req.body.longitude = false)
    (hex : pathJoin env.uploadsDir file.filename ∈ files)
    (hu : env.unlinkSync (pathJoin env.uploadsDir file.filename) = some m) :
    (handler env req files).fault = some m
      ∧ ((handler env req files).response.status = 200
          ∨ (handler env req files).response.status = 500)
      ∧ (handler env req files).response
          = (handler { env with unlinkSync := fun _ => none } req files).response
      ∧ (handler { env with unlinkSync := fun _ => none } req files).fault = none
      ∧ unlinksOf (handler env req files).events = [pathJoin env.uploadsDir file.filename]
      ∧ pathJoin env.uploadsDir file.filename ∈ (handler env req files).files := by
  obtain ⟨hpath, -, hstatus⟩ := tryBlock_valid env req file hf hlat hlon
  have hsame : tryBlock { env with unlinkSync := fun _ => none } req = tryBlock env req := rfl
  refine ⟨?_, ?_, ?_, ?_, ?_, ?_⟩
  · unfold handler
    simp [hpath, hex, hu]
  · rw [handler_response]
    cases hcomp : (tryBlock env req).completion with
    | ok r => exact Or.inl (hstatus r hcomp)
    | error e => exact Or.inr rfl
  · rw [handler_response, handler_response, hsame]
  · unfold handler
    simp [hsame, hpath, hex]
  · unfold handler
    simp [hpath, hex, hu, unlinksOf]
  · unfold handler
    simp [hpath, hex, hu]

/-- An instance of C10: the scenario with `fs.unlinkSync` throwing. -/
theorem unlink_failure_escapes_witness :
    (handler (lockedEnv "EPERM: operation not permitted, unlink") demoRequest [demoPath]).fault
        = some "EPERM: operation not permitted, unlink"
      ∧ (handler (lockedEnv "EPERM: operation not permitted, unlink")
          demoRequest [demoPath]).response.status = 200 :=
  ⟨(unlink_failure_escapes (lockedEnv "EPERM: operation not permitted, unlink") demoRequest
      demoFile [demoPath] "EPERM: operation not permitted, unlink" rfl rfl rfl
      (by decide) rfl).1,
    rfl⟩

/-- Once a request has passed validation, a successful deletion leaves no file
at its staged path, whether the pipeline ended with the 200 or the 500
response. -/
theorem staged_file_removed_after_pipeline (env : Env) (req : Request) (file : MulterFile)
    (files : List String) (hf : req.file = some file)
    (hlat : falsy req.body.latitude = false) (hlon : falsy req.body.longitude = false)
    (hu : env.unlinkSync (pathJoin env.uploadsDir file.filename) = none) :
    pathJoin env.uploadsDir file.filename ∉ (handler env req files).files := by
  obtain ⟨hpath, -, -⟩ := tryBlock_valid env req file hf hlat hlon
  unfold handler
  by_cases hex : pathJoin env.uploadsDir file.filename ∈ files
  · simp [hpath, hex, hu]
  · simp [hpath, hex]

/-- A request with a staged file and a missing coordinate leaves the handler
with `finalPath` still unassigned, so the clean-up deletes nothing and the
staged file stays. -/
theorem staged_file_kept_without_coordinates (env : Env) (req : Request) (file : MulterFile)
    (files : List String) (hf : req.file = some file)
    (h : falsy req.body.latitude = true ∨ falsy req.body.longitude = true) :
    (handler env req files).files = files ∧ (handler env req files).events = [] := by
  have ht := tryBlock_no_coordinates env req file hf h
  have hp := handler_no_path env req files (by rw [ht])
  rw [ht] at hp
  exact ⟨hp.2.1, hp.1⟩

/-- C1, at the exit path where it fails: an upload with audio of 2048 bytes,
no latitude and longitude "20" is staged as `audio-1700000000000.m4a`; the
handler answers 400 "Faltan coordenadas", attempts no deletion, and the staged
file is still in the staging directory when the handler has finished. -/
theorem staged_file_leaks_on_missing_coordinates :
    uploadSingle demoEnv 1700000000000 (some 2048) { latitude := none, longitude := some "20" } []
        = some ({ file := some demoFile, body := { latitude := none, longitude := some "20" } },
            [demoPath])
      ∧ (handler demoEnv
          { file := some demoFile, body := { latitude := none, longitude := some "20" } }
          [demoPath]).response.status = 400
      ∧ (handler demoEnv
          { file := some demoFile, body := { latitude := none, longitude := some "20" } }
          [demoPath]).response.body = .obj [("error", .str "Faltan coordenadas")]
      ∧ unlinksOf (handler demoEnv
          { file := some demoFile, body := { latitude := none, longitude := some "20" } }
          [demoPath]).events = []
      ∧ demoPath ∈ (handler demoEnv
          { file := some demoFile, body := { latitude := none, longitude := some "20" } }
          [demoPath]).files := by
  refine ⟨by rfl, by rfl, by rfl, by rfl, ?_⟩
  have hfiles : (handler demoEnv
      { file := some demoFile, body := { latitude := none, longitude := some "20" } }
      [demoPath]).files = [demoPath] := rfl
  rw [hfiles]
  exact List.mem_singleton.2 rfl

/-! ## Staged file names -/

/-- The staged name is a function of the clock reading alone: two uploads at
the same value of `Date.now()` get the same name. -/
theorem uploadSingle_same_clock_same_name (env : Env) (now : Int) (size₁ size₂ : Nat)
    (body₁ body₂ : Body) (files₁ files₂ : List String) (req₁ req₂ : Request)
    (after₁ after₂ : List String)
    (h₁ : uploadSingle env now (some size₁) body₁ files₁ = some (req₁, after₁))
    (h₂ : uploadSingle env now (some size₂) body₂ files₂ = some (req₂, after₂)) :
    req₁.file.map MulterFile.filename = some (filename now)
      ∧ req₂.file.map MulterFile.filename = some (filename now) := by
  unfold uploadSingle at h₁ h₂
  constructor
  · by_cases hs : size₁ > fileSizeLimit
    · simp [hs] at h₁
    · simp only [hs, if_false, Option.some.injEq, Prod.mk.injEq] at h₁
      rw [← h₁.1]
      rfl
  · by_cases hs : size₂ > fileSizeLimit
    · simp [hs] at h₂
    · simp only [hs, if_false, Option.some.injEq, Prod.mk.injEq] at h₂
      rw [← h₂.1]
      rfl

/-- C7, at an input where it fails: two different uploads (2048 bytes with
coordinates 10, 20 and 4096 bytes with coordinates 30, 40) whose `filename`
callbacks both read the clock at 1700000000000 are staged under the same name
`audio-1700000000000.m4a`; the second upload reuses the path of the first, and
the clean-up of the first request removes the file the second request
holds. -/
theorem filename_collision_same_millisecond :
    filename 1700000000000 = "audio-1700000000000.m4a"
      ∧ uploadSingle demoEnv 1700000000000 (some 2048)
          { latitude := some "10", longitude := some "20" } []
        = some ({ file := some { filename := "audio-1700000000000.m4a", size := 2048 },
                  body := { latitude := some "10", longitude := some "20" } }, [demoPath])
      ∧ uploadSingle demoEnv 1700000000000 (some 4096)
          { latitude := some "30", longitude := some "40" } [demoPath]
        = some ({ file := some { filename := "audio-1700000000000.m4a", size := 4096 },
                  body := { latitude := some "30", longitude := some "40" } }, [demoPath])
      ∧ (handler demoEnv
          { file := some { filename := "audio-1700000000000.m4a", size := 2048 },
            body := { latitude := some "10", longitude := some "20" } } [demoPath]).files = [] := by
  refine ⟨by rfl, by rfl, by rfl, by rfl⟩

end AudioWeather
